import Mathlib

/-!
Verification development for the `ab_gateway` MQTT discovery pipeline
(`custom_components/ab_gateway/discovery.py`).

Embedding conventions:
- Python `bytes` values are `List Nat` with every element below 256.
- Python `str` values are `List Nat` of Unicode code points (`PyStr`);
  `str.lower()` is modelled on the ASCII range, the only range the
  claims exercise.
- Python `dict` state is an association list with first-match lookup and
  in-place replacement on key collision, matching `d[k] = v` semantics.
- The msgpack and json libraries are external collaborators; their
  outcomes on a payload are abstract function parameters.  The exception
  control flow of `async_message_received` is embedded exactly.
- `time.monotonic()` is modelled by an integer clock that the processing
  loop advances by one per dequeued item.
-/

set_option autoImplicit false

namespace ABGateway

/-- Python strings as lists of Unicode code points. -/
abbrev PyStr := List Nat

/-- Code points of a Lean string literal, for readable concrete inputs. -/
def strCodes (s : String) : PyStr := s.data.map Char.toNat

/-- ASCII `str.lower()` on one code point: `A`..`Z` maps to `a`..`z`. -/
def lowerCode (c : Nat) : Nat := if 65 ≤ c ∧ c ≤ 90 then c + 32 else c

/-- Python `str.lower()` (ASCII range). Used at `dev[INDEX_MAC].lower()`. -/
def lowerStr (s : PyStr) : PyStr := s.map lowerCode

/-- Lowercase hex digit for a value below 16, as a code point
(`0`..`9` then `a`..`f`), as produced by Python `bytes.hex()`. -/
def hexDigitLower (n : Nat) : Nat := if n < 10 then 48 + n else 87 + n

/-- Two lowercase hex digits of one byte, as code points. -/
def byteToHex (b : Nat) : PyStr := [hexDigitLower (b / 16), hexDigitLower (b % 16)]

/-- Python `bytes.hex()`: lowercase hex encoding of a byte sequence. -/
def bytesToHex (bs : List Nat) : PyStr := (bs.map byteToHex).flatten

/-- Value of one hex digit code point, upper or lower case. -/
def hexDigitVal (c : Nat) : Option Nat :=
  if 48 ≤ c ∧ c ≤ 57 then some (c - 48)
  else if 97 ≤ c ∧ c ≤ 102 then some (c - 87)
  else if 65 ≤ c ∧ c ≤ 70 then some (c - 55)
  else none

/-- Python `bytes.fromhex`: two hex digits per byte, ASCII spaces allowed
between pairs; any other shape raises `ValueError`, modelled as `none`. -/
def hexDecode : PyStr → Option (List Nat)
  | [] => some []
  | 32 :: rest => hexDecode rest
  | c1 :: c2 :: rest =>
    match hexDigitVal c1, hexDigitVal c2 with
    | some h, some l => (hexDecode rest).map fun bs => (16 * h + l) :: bs
    | _, _ => none
  | [_] => none

/-- A code point that is a lowercase hex digit. -/
def isLowerHexDigit (c : Nat) : Bool := (48 ≤ c && c ≤ 57) || (97 ≤ c && c ≤ 102)

/-- A code point that is a hex digit of either case. -/
def isHexDigit (c : Nat) : Bool :=
  (48 ≤ c && c ≤ 57) || (97 ≤ c && c ≤ 102) || (65 ≤ c && c ≤ 70)

/-- The canonical device record built by the pipeline: the four-slot value
`[adtype, mac, rssi, adpayload]` both normalization branches produce. -/
structure DeviceRecord where
  adType : Int
  mac : PyStr
  rssi : Int
  advPayload : List Nat
deriving DecidableEq, Repr

/-- A device entry in the list wire shape.  Slot positions follow the index
constants of `const.py` (not under `src/`), modelled from the spec:
index 0 adType, `INDEX_MAC` = 1, `INDEX_RSSI` = 2, `INDEX_ADV` = 3. -/
structure ListEntry where
  adType : Int
  mac : PyStr
  rssi : Int
  advPayloadHex : PyStr
deriving DecidableEq, Repr

/-- One raw device entry of a decoded report: Python `bytes`, or the list
shape (the `type(dev).__name__ == 'bytes'` branch in the source). -/
inductive RawDeviceEntry where
  | binary (data : List Nat)
  | listForm (dev : ListEntry)
deriving DecidableEq, Repr

/-- A decoded transport message: `data.get('mac')` (absent keys give
`None`) and `data.get('devices', [])`. -/
structure RawReport where
  mac : Option PyStr
  devices : List RawDeviceEntry
deriving DecidableEq, Repr

/-- `convert_dev_to_dict` (discovery.py lines 96-104): `data[0]` is adType,
`data[1:7].hex()` the MAC, `data[7] - 256` the RSSI, `data[8:]` the
payload.  Out-of-range indexing, an IndexError in Python, is defaulted to
0 here; every theorem below supplies enough length for the defaults never
to be reached. -/
def convert_dev_to_dict (data : List Nat) : DeviceRecord :=
  { adType := (data.getD 0 0 : Nat)
  , mac := bytesToHex ((data.drop 1).take 6)
  , rssi := (data.getD 7 0 : Nat) - 256
  , advPayload := data.drop 8 }

/-- The list branch of `async_process_discovery_data` (lines 113-114):
lowercase the MAC in place, replace slot 3 by `bytes.fromhex(dev[3])`.
A `ValueError` from `fromhex` is `none`. -/
def normalize_list_entry (dev : ListEntry) : Option DeviceRecord :=
  (hexDecode dev.advPayloadHex).map fun payload =>
    { adType := dev.adType
    , mac := lowerStr dev.mac
    , rssi := dev.rssi
    , advPayload := payload }

/-- Normalization of one raw entry: the `bytes` branch never fails, the
list branch may raise on a malformed payload hex string. -/
def normalize_entry : RawDeviceEntry → Option DeviceRecord
  | .binary data => some (convert_dev_to_dict data)
  | .listForm dev => normalize_list_entry dev

/-- One unit of work put on the `"adv"` queue. -/
structure QueueItem where
  gateway_id : Option PyStr
  device : DeviceRecord
deriving DecidableEq, Repr

/-- The device loop of `async_process_discovery_data` (lines 109-115):
entries are enqueued in order until one raises; the Bool is `false` when a
`ValueError` escaped mid-loop (earlier items stay enqueued). -/
def processDevices (gid : Option PyStr) : List RawDeviceEntry → List QueueItem × Bool
  | [] => ([], true)
  | e :: rest =>
    match normalize_entry e with
    | some rec =>
      let tail := processDevices gid rest
      (⟨gid, rec⟩ :: tail.1, tail.2)
    | none => ([], false)

/-- `async_process_discovery_data` (lines 106-116) on a decoded report. -/
def async_process_discovery_data (r : RawReport) : List QueueItem × Bool :=
  processDevices r.mac r.devices

/-- The Python exceptions the message handler can see or raise. -/
inductive PyError where
  | extraData
  | unicodeDecodeError
  | valueError
  | nameError
deriving DecidableEq, Repr

/-- The outcome of one external deserialization call (`msgpack.unpackb` or
`json.loads`) on a payload: a decoded report, or a raised exception. -/
inductive Unpacked where
  | ok (r : RawReport)
  | exn (e : PyError)
deriving DecidableEq, Repr

/-- What one call of the message handler does: return normally with the
listed items enqueued, return normally having dropped the message, or let
an exception escape to the MQTT dispatcher (items enqueued before the
failure stay enqueued). -/
inductive MsgOutcome where
  | enqueued (items : List QueueItem)
  | dropped
  | raised (e : PyError) (items : List QueueItem)
deriving DecidableEq, Repr

/-- `async_message_received` (lines 118-133), with the two external
deserializers abstracted as outcome functions on the payload.  The
exception control flow is embedded exactly:
- a `ValueError` raised inside the `except ExtraData` handler (that is,
  by `json.loads` or by the processing of its report) is not caught by
  the later `except` clauses of the same `try` and escapes;
- the `except ValueError` clause, when it is reached from the `try`
  body, logs with the undefined name `payload` and so raises
  `NameError`. -/
def async_message_received (unpackb jsonLoads : List Nat → Unpacked)
    (payload : List Nat) : MsgOutcome :=
  match unpackb payload with
  | .ok data =>
    match async_process_discovery_data data with
    | (items, true) => .enqueued items
    | (items, false) => .raised .nameError items
  | .exn .extraData =>
    match jsonLoads payload with
    | .ok data =>
      match async_process_discovery_data data with
      | (items, true) => .enqueued items
      | (items, false) => .raised .valueError items
    | .exn e => .raised e []
  | .exn .unicodeDecodeError => .dropped
  | .exn .valueError => .raised .nameError []
  | .exn e => .raised e []

/-- The report-producing stage of `async_message_received` (lines 121 and
125): msgpack first, and on a trailing-data condition the JSON fallback on
the same payload. -/
def decodeReport (unpackb jsonLoads : List Nat → Unpacked)
    (payload : List Nat) : Unpacked :=
  match unpackb payload with
  | .ok data => .ok data
  | .exn .extraData => jsonLoads payload
  | .exn e => .exn e

/-- Identity and advertisement data returned by the BLE advertisement
parsing module for one record (bleak `BLEDevice`). -/
structure BLEDevice where
  address : PyStr
  name : Option PyStr
deriving DecidableEq, Repr

/-- bleak `AdvertisementData` as used by `async_on_advertisement`. -/
structure AdvertisementData where
  local_name : Option PyStr
  rssi : Int
  manufacturer_data : List (Nat × List Nat)
  service_data : List (PyStr × List Nat)
  service_uuids : List PyStr
deriving DecidableEq, Repr

/-- The event handed to the registered callback (`BluetoothServiceInfoBleak`,
lines 165-177). -/
structure BluetoothServiceInfoBleak where
  name : PyStr
  address : PyStr
  rssi : Int
  manufacturer_data : List (Nat × List Nat)
  service_data : List (PyStr × List Nat)
  service_uuids : List PyStr
  source : PyStr
  device : BLEDevice
  advertisement : AdvertisementData
  connectable : Bool
  time : Int
deriving DecidableEq, Repr

/-- Python truthiness of an optional string: `None` and the empty string
are falsy. -/
def pyTruthy : Option PyStr → Bool
  | none => false
  | some s => !s.isEmpty

/-- The `or` chain of line 166:
`advertisement_data.local_name or device.name or device.address`. -/
def fallbackName (localName devName : Option PyStr) (address : PyStr) : PyStr :=
  if pyTruthy localName then localName.getD []
  else if pyTruthy devName then devName.getD []
  else address

/-- Python `f"...{x}..."` on an optional string: `None` renders as the
four letters `None`. -/
def pyFormatOpt : Option PyStr → PyStr
  | none => strCodes "None"
  | some s => s

/-- Modelled from the spec: the scanner-domain constant `DOMAIN` of
`const.py`, which is not under `src/`; its value is the integration
name and no claim depends on it. -/
def DOMAIN : PyStr := strCodes "ab_gateway"

/-- `connectable=False` passed to `async_register_scanner` at line 57. -/
def async_register_scanner_connectable : Bool := false

/-- Python dict assignment `d[k] = v` on an association list: replace the
binding in place, or append a fresh one. -/
def dictSet {α : Type} (d : List (PyStr × α)) (k : PyStr) (v : α) :
    List (PyStr × α) :=
  match d with
  | [] => [(k, v)]
  | (k', v') :: rest => if k' = k then (k, v) :: rest else (k', v') :: dictSet rest k v

/-- Python dict lookup `d.get(k)` on an association list. -/
def dictGet {α : Type} (d : List (PyStr × α)) (k : PyStr) : Option α :=
  match d with
  | [] => none
  | (k', v') :: rest => if k' = k then some v' else dictGet rest k

/-- The mutable scanner state touched by the processing loop: the two
per-address dicts of lines 85-88, plus the trace of events handed to
`_new_info_callback`. -/
structure ScannerState where
  advertisement_datas : List (PyStr × (BLEDevice × AdvertisementData))
  timestamps : List (PyStr × Int)
  dispatched : List BluetoothServiceInfoBleak
deriving DecidableEq, Repr

/-- Scanner state right after `__init__`: both dicts empty, nothing
dispatched. -/
def initialState : ScannerState := ⟨[], [], []⟩

/-- `async_on_advertisement` (lines 154-178), with the advertisement
adapter abstracted: `ble_parser.parse_data` is part of this repository but
not under `src/`, so per the spec contract it yields an identity and
advertisement pair or fails with a parse error, modelled as `none`.  On
failure the exception propagates (`none` result); on success both dicts
are updated and one event is dispatched. -/
def async_on_advertisement
    (parse : DeviceRecord → Option (BLEDevice × AdvertisementData))
    (item : QueueItem) (now : Int) (s : ScannerState) : Option ScannerState :=
  match parse item.device with
  | none => none
  | some (device, advertisement_data) =>
    some
      { advertisement_datas :=
          dictSet s.advertisement_datas device.address (device, advertisement_data)
      , timestamps := dictSet s.timestamps device.address now
      , dispatched := s.dispatched ++
          [{ name := fallbackName advertisement_data.local_name device.name device.address
           , address := device.address
           , rssi := advertisement_data.rssi
           , manufacturer_data := advertisement_data.manufacturer_data
           , service_data := advertisement_data.service_data
           , service_uuids := advertisement_data.service_uuids
           , source := DOMAIN ++ strCodes "_" ++ pyFormatOpt item.gateway_id
           , device := device
           , advertisement := advertisement_data
           , connectable := true
           , time := now }] }

/-- The consumer loop of `async_run` (lines 146-152) over a finite queue
trace.  Only `asyncio.TimeoutError` is caught there, so a failure of
`async_on_advertisement` escapes the loop: the result is the state so
far, the items left unprocessed, and `false` for a dead task (`true`
means the loop is still alive waiting for more items). -/
def async_run_loop (parse : DeviceRecord → Option (BLEDevice × AdvertisementData)) :
    List QueueItem → Int → ScannerState → ScannerState × List QueueItem × Bool
  | [], _, s => (s, [], true)
  | item :: rest, now, s =>
    match async_on_advertisement parse item now s with
    | some s' => async_run_loop parse rest (now + 1) s'
    | none => (s, rest, false)

/-! ## Association-list dictionary lemmas -/

theorem dictGet_dictSet_same {α : Type} (d : List (PyStr × α)) (k : PyStr) (v : α) :
    dictGet (dictSet d k v) k = some v := by
  induction d with
  | nil => simp [dictSet, dictGet]
  | cons p rest ih =>
    obtain ⟨k', v'⟩ := p
    by_cases h : k' = k <;> simp [dictSet, dictGet, h, ih]

theorem dictGet_dictSet_isSome {α : Type} (d : List (PyStr × α)) (k a : PyStr) (v : α)
    (h : (dictGet d a).isSome = true) :
    (dictGet (dictSet d k v) a).isSome = true := by
  induction d with
  | nil => simp [dictGet] at h
  | cons p rest ih =>
    obtain ⟨k', v'⟩ := p
    by_cases hk : k' = k
    · subst hk
      by_cases ha : k' = a <;> simp [dictSet, dictGet, ha] at h ⊢
      exact h
    · by_cases ha : k' = a
      · subst ha
        simp [dictSet, dictGet, hk]
      · simp [dictSet, dictGet, hk, ha] at h ⊢
        exact ih h

/-! ## Hex-encoding lemmas -/

theorem hexDigitLower_isLower (n : Nat) (h : n < 16) :
    isLowerHexDigit (hexDigitLower n) = true := by
  simp only [hexDigitLower, isLowerHexDigit]
  split <;> simp <;> omega

theorem byteToHex_isLower (b : Nat) (hb : b < 256) :
    ∀ c ∈ byteToHex b, isLowerHexDigit c = true := by
  intro c hc
  simp only [byteToHex, List.mem_cons, List.mem_singleton, List.not_mem_nil] at hc
  rcases hc with h | h | h
  · exact h ▸ hexDigitLower_isLower _ (by omega)
  · exact h ▸ hexDigitLower_isLower _ (Nat.mod_lt _ (by omega))
  · exact absurd h (by simp)

theorem bytesToHex_isLower (bs : List Nat) (hb : ∀ b ∈ bs, b < 256) :
    ∀ c ∈ bytesToHex bs, isLowerHexDigit c = true := by
  intro c hc
  simp only [bytesToHex, List.mem_flatten, List.mem_map] at hc
  obtain ⟨l, ⟨b, hbm, rfl⟩, hcl⟩ := hc
  exact byteToHex_isLower b (hb b hbm) c hcl

theorem bytesToHex_length (bs : List Nat) :
    (bytesToHex bs).length = 2 * bs.length := by
  induction bs with
  | nil => rfl
  | cons b rest ih =>
    simp only [bytesToHex, List.map_cons, List.flatten_cons, List.length_append,
      List.length_cons] at ih ⊢
    simp [byteToHex, ih]
    omega

theorem lowerCode_hexDigit (c : Nat) (h : isHexDigit c = true) :
    isLowerHexDigit (lowerCode c) = true := by
  simp only [isHexDigit, Bool.or_eq_true, Bool.and_eq_true, decide_eq_true_eq] at h
  simp only [lowerCode, isLowerHexDigit, Bool.or_eq_true, Bool.and_eq_true,
    decide_eq_true_eq]
  split <;> omega

theorem lowerStr_all_lowerHex (s : PyStr) (h : ∀ c ∈ s, isHexDigit c = true) :
    ∀ c ∈ lowerStr s, isLowerHexDigit c = true := by
  intro c hc
  simp only [lowerStr, List.mem_map] at hc
  obtain ⟨c', hc', rfl⟩ := hc
  exact lowerCode_hexDigit c' (h c' hc')

theorem exists_six (l : List Nat) (h : l.length = 6) :
    ∃ a b c d e f, l = [a, b, c, d, e, f] := by
  rcases l with _ | ⟨a, _ | ⟨b, _ | ⟨c, _ | ⟨d, _ | ⟨e, _ | ⟨f, _ | ⟨g, tl⟩⟩⟩⟩⟩⟩⟩
  all_goals first
    | exact ⟨_, _, _, _, _, _, rfl⟩
    | simp at h

/-- Invariant carrier for the C10 claim: a run of the consumer loop keeps
every dispatched event connectable. -/
theorem async_run_loop_all_connectable
    (parse : DeviceRecord → Option (BLEDevice × AdvertisementData))
    (items : List QueueItem) :
    ∀ (t : Int) (s : ScannerState),
      (s.dispatched.all fun e => e.connectable) = true →
      (((async_run_loop parse items t s).1.dispatched).all fun e => e.connectable) = true := by
  induction items with
  | nil => intro t s h; exact h
  | cons item rest ih =>
    intro t s h
    simp only [async_run_loop, async_on_advertisement]
    cases hp : parse item.device with
    | none => exact h
    | some pr =>
      obtain ⟨dev, ad⟩ := pr
      apply ih
      simp [List.all_append, h]

/-! ## Claims -/

/-- C1, counterexample: with a queue holding one record the adapter
rejects and then one it accepts, the processing loop dispatches no event
at all, the second item is left unprocessed, and the consumer task is
dead — refuting the claim that the loop logs, continues with subsequent
items and never crashes on one bad record. -/
theorem parse_failure_kills_loop_counterexample :
    async_run_loop
        (fun r => if r.adType = 0 then none
          else some (⟨strCodes "aa", none⟩, ⟨none, -50, [], [], []⟩))
        [⟨none, ⟨0, [], -60, []⟩⟩, ⟨none, ⟨1, [], -60, []⟩⟩] 0 initialState =
      (initialState, [⟨none, ⟨1, [], -60, []⟩⟩], false) := by
  decide

/-- C1, amended: when the advertisement adapter fails on a queue item, no
event is dispatched for it and the caches are untouched, but the
exception is not caught by the processing loop (which handles only the
queue timeout), so the loop terminates and the remaining queued items are
never processed. -/
theorem parse_failure_halts_loop
    (parse : DeviceRecord → Option (BLEDevice × AdvertisementData))
    (item : QueueItem) (rest : List QueueItem) (t : Int) (s : ScannerState)
    (h : parse item.device = none) :
    async_run_loop parse (item :: rest) t s = (s, rest, false) := by
  simp [async_run_loop, async_on_advertisement, h]

/-- C1, witness for the amended claim at a concrete bad record. -/
theorem parse_failure_halts_loop_witness :
    async_run_loop (fun _ => none)
        [⟨none, ⟨0, [], -60, []⟩⟩, ⟨none, ⟨1, [], -60, []⟩⟩] 0 initialState =
      (initialState, [⟨none, ⟨1, [], -60, []⟩⟩], false) :=
  parse_failure_halts_loop (fun _ => none) ⟨none, ⟨0, [], -60, []⟩⟩
    [⟨none, ⟨1, [], -60, []⟩⟩] 0 initialState rfl

/-- C2: on a payload where msgpack raises the trailing-data condition and
the JSON fallback then raises a generic value error, the message handler
does not drop the message silently: the `ValueError` is raised inside the
`except ExtraData` handler, escapes `async_message_received`, and nothing
is enqueued — the code contradicts the claimed log-and-return-normally
behaviour. -/
theorem json_value_error_escapes_handler :
    async_message_received (fun _ => .exn .extraData) (fun _ => .exn .valueError)
        [0, 0] = .raised .valueError [] := by
  decide

/-- C5: two queue items whose records parse to the same device address,
processed in sequence, leave the advertisement cache holding exactly the
second pair and the timestamp cache holding the second observation time,
while the subscriber callback is invoked twice (one event per item) and
the loop stays alive. -/
theorem last_write_wins
    (parse : DeviceRecord → Option (BLEDevice × AdvertisementData))
    (i1 i2 : QueueItem) (t : Int) (s : ScannerState)
    (d1 d2 : BLEDevice) (a1 a2 : AdvertisementData)
    (h1 : parse i1.device = some (d1, a1))
    (h2 : parse i2.device = some (d2, a2))
    (haddr : d1.address = d2.address) :
    dictGet (async_run_loop parse [i1, i2] t s).1.advertisement_datas d1.address =
        some (d2, a2) ∧
    dictGet (async_run_loop parse [i1, i2] t s).1.timestamps d1.address = some (t + 1) ∧
    (async_run_loop parse [i1, i2] t s).1.dispatched.length = s.dispatched.length + 2 ∧
    (async_run_loop parse [i1, i2] t s).2.2 = true := by
  simp only [async_run_loop, async_on_advertisement, h1, h2, haddr]
  refine ⟨dictGet_dictSet_same _ _ _, dictGet_dictSet_same _ _ _, by simp, trivial⟩

/-- C5, witness: the same address reported twice with different RSSI; the
cache ends at the second advertisement and two events are dispatched. -/
theorem last_write_wins_witness :
    dictGet (async_run_loop
        (fun r => some (⟨strCodes "aa", none⟩, ⟨none, r.rssi, [], [], []⟩))
        [⟨none, ⟨1, [], -60, []⟩⟩, ⟨none, ⟨1, [], -70, []⟩⟩] 0
        initialState).1.advertisement_datas (strCodes "aa") =
      some (⟨strCodes "aa", none⟩, ⟨none, -70, [], [], []⟩) ∧
    dictGet (async_run_loop
        (fun r => some (⟨strCodes "aa", none⟩, ⟨none, r.rssi, [], [], []⟩))
        [⟨none, ⟨1, [], -60, []⟩⟩, ⟨none, ⟨1, [], -70, []⟩⟩] 0
        initialState).1.timestamps (strCodes "aa") = some (0 + 1) ∧
    (async_run_loop
        (fun r => some (⟨strCodes "aa", none⟩, ⟨none, r.rssi, [], [], []⟩))
        [⟨none, ⟨1, [], -60, []⟩⟩, ⟨none, ⟨1, [], -70, []⟩⟩] 0
        initialState).1.dispatched.length = initialState.dispatched.length + 2 ∧
    (async_run_loop
        (fun r => some (⟨strCodes "aa", none⟩, ⟨none, r.rssi, [], [], []⟩))
        [⟨none, ⟨1, [], -60, []⟩⟩, ⟨none, ⟨1, [], -70, []⟩⟩] 0
        initialState).2.2 = true :=
  last_write_wins
    (fun r => some (⟨strCodes "aa", none⟩, ⟨none, r.rssi, [], [], []⟩))
    ⟨none, ⟨1, [], -60, []⟩⟩ ⟨none, ⟨1, [], -70, []⟩⟩ 0 initialState
    ⟨strCodes "aa", none⟩ ⟨strCodes "aa", none⟩
    ⟨none, -60, [], [], []⟩ ⟨none, -70, [], [], []⟩ rfl rfl rfl

/-- C9: a run of the processing loop never removes a key from either
per-address cache: any address cached before the run is still cached
after it, whatever the queue contents, the adapter behaviour, or a
mid-run crash — cached addresses are monotonically nondecreasing. -/
theorem cache_never_evicts
    (parse : DeviceRecord → Option (BLEDevice × AdvertisementData))
    (items : List QueueItem) (t : Int) (s : ScannerState) (a : PyStr) :
    ((dictGet s.advertisement_datas a).isSome = true →
      (dictGet (async_run_loop parse items t s).1.advertisement_datas a).isSome = true) ∧
    ((dictGet s.timestamps a).isSome = true →
      (dictGet (async_run_loop parse items t s).1.timestamps a).isSome = true) := by
  induction items generalizing t s with
  | nil => exact ⟨id, id⟩
  | cons item rest ih =>
    simp only [async_run_loop, async_on_advertisement]
    cases hp : parse item.device with
    | none => exact ⟨id, id⟩
    | some pr =>
      obtain ⟨dev, ad⟩ := pr
      constructor
      · intro h
        exact (ih _ _).1 (dictGet_dictSet_isSome _ _ _ _ h)
      · intro h
        exact (ih _ _).2 (dictGet_dictSet_isSome _ _ _ _ h)

/-- C9, witness: an address cached before a run over one item for a
different address is still cached afterwards, in both dicts. -/
theorem cache_never_evicts_witness :
    (dictGet (async_run_loop
        (fun _ => some (⟨strCodes "bb", none⟩, ⟨none, -50, [], [], []⟩))
        [⟨none, ⟨1, [], -60, []⟩⟩] 0
        ⟨[(strCodes "aa", (⟨strCodes "aa", none⟩, ⟨none, -40, [], [], []⟩))],
         [(strCodes "aa", 5)], []⟩).1.advertisement_datas
        (strCodes "aa")).isSome = true ∧
    (dictGet (async_run_loop
        (fun _ => some (⟨strCodes "bb", none⟩, ⟨none, -50, [], [], []⟩))
        [⟨none, ⟨1, [], -60, []⟩⟩] 0
        ⟨[(strCodes "aa", (⟨strCodes "aa", none⟩, ⟨none, -40, [], [], []⟩))],
         [(strCodes "aa", 5)], []⟩).1.timestamps (strCodes "aa")).isSome = true :=
  ⟨(cache_never_evicts
      (fun _ => some (⟨strCodes "bb", none⟩, ⟨none, -50, [], [], []⟩))
      [⟨none, ⟨1, [], -60, []⟩⟩] 0
      ⟨[(strCodes "aa", (⟨strCodes "aa", none⟩, ⟨none, -40, [], [], []⟩))],
       [(strCodes "aa", 5)], []⟩ (strCodes "aa")).1 (by decide),
   (cache_never_evicts
      (fun _ => some (⟨strCodes "bb", none⟩, ⟨none, -50, [], [], []⟩))
      [⟨none, ⟨1, [], -60, []⟩⟩] 0
      ⟨[(strCodes "aa", (⟨strCodes "aa", none⟩, ⟨none, -40, [], [], []⟩))],
       [(strCodes "aa", 5)], []⟩ (strCodes "aa")).2 (by decide)⟩

/-- C6: the binary tuple branch turns an RSSI byte `v` (any value from 0
to 255) into the integer `v - 256`, and the list branch passes the RSSI
through normalization unchanged. -/
theorem rssi_bias (adType v : Nat) (mac6 payload : List Nat)
    (dev : ListEntry) (rec : DeviceRecord)
    (hm : mac6.length = 6) (hv : v ≤ 255)
    (hn : normalize_list_entry dev = some rec) :
    (convert_dev_to_dict (adType :: (mac6 ++ v :: payload))).rssi = (v : Int) - 256 ∧
    rec.rssi = dev.rssi := by
  obtain ⟨a, b, c, d, e, f, rfl⟩ := exists_six mac6 hm
  constructor
  · simp [convert_dev_to_dict]
  · cases hp : hexDecode dev.advPayloadHex with
    | none => simp [normalize_list_entry, hp] at hn
    | some p =>
      simp only [normalize_list_entry, hp, Option.map_some', Option.some_inj] at hn
      rw [← hn]

/-- C6, witness: the spec's worked example, RSSI byte 0xC8 becomes -56;
the list-form RSSI -56 is untouched. -/
theorem rssi_bias_witness :
    (convert_dev_to_dict (2 :: ([17, 34, 51, 68, 85, 102] ++ 200 :: [1, 2]))).rssi =
        (200 : Int) - 256 ∧
    (DeviceRecord.mk 2 (strCodes "112233445566") (-56) [1, 2]).rssi =
        (ListEntry.mk 2 (strCodes "112233445566") (-56) (strCodes "0102")).rssi :=
  rssi_bias 2 200 [17, 34, 51, 68, 85, 102] [1, 2]
    ⟨2, strCodes "112233445566", -56, strCodes "0102"⟩
    ⟨2, strCodes "112233445566", -56, [1, 2]⟩ rfl (by decide) (by decide)

/-- C7: both normalization branches yield a lowercase-hex MAC: the binary
branch yields exactly the lowercase 12-hex-digit encoding of the six MAC
bytes, and the list branch lowercases a hex-digit MAC string into
lowercase hex. -/
theorem mac_lowercase_hex (adType v : Nat) (mac6 payload : List Nat)
    (dev : ListEntry) (rec : DeviceRecord)
    (hm : mac6.length = 6) (hb : ∀ b ∈ mac6, b < 256)
    (hn : normalize_list_entry dev = some rec)
    (hhex : dev.mac.all isHexDigit = true) :
    (convert_dev_to_dict (adType :: (mac6 ++ v :: payload))).mac = bytesToHex mac6 ∧
    (convert_dev_to_dict (adType :: (mac6 ++ v :: payload))).mac.length = 12 ∧
    (convert_dev_to_dict (adType :: (mac6 ++ v :: payload))).mac.all isLowerHexDigit = true ∧
    rec.mac.all isLowerHexDigit = true := by
  have hmac : (convert_dev_to_dict (adType :: (mac6 ++ v :: payload))).mac = bytesToHex mac6 := by
    obtain ⟨a, b, c, d, e, f, rfl⟩ := exists_six mac6 hm
    rfl
  refine ⟨hmac, ?_, ?_, ?_⟩
  · rw [hmac, bytesToHex_length, hm]
  · rw [hmac, List.all_eq_true]
    exact bytesToHex_isLower mac6 hb
  · cases hp : hexDecode dev.advPayloadHex with
    | none => simp [normalize_list_entry, hp] at hn
    | some p =>
      simp only [normalize_list_entry, hp, Option.map_some', Option.some_inj] at hn
      rw [← hn, List.all_eq_true]
      exact lowerStr_all_lowerHex dev.mac (List.all_eq_true.mp hhex)

/-- C7, witness: a mixed-case list MAC is lowercased; the binary MAC is
hex-encoded to 12 lowercase digits. -/
theorem mac_lowercase_hex_witness :
    (convert_dev_to_dict (2 :: ([17, 34, 51, 68, 85, 170] ++ 200 :: [1, 2]))).mac =
        bytesToHex [17, 34, 51, 68, 85, 170] ∧
    (convert_dev_to_dict (2 :: ([17, 34, 51, 68, 85, 170] ++ 200 :: [1, 2]))).mac.length = 12 ∧
    (convert_dev_to_dict
        (2 :: ([17, 34, 51, 68, 85, 170] ++ 200 :: [1, 2]))).mac.all isLowerHexDigit = true ∧
    (DeviceRecord.mk 2 (strCodes "1122334455aa") (-56) [1, 2]).mac.all isLowerHexDigit = true :=
  mac_lowercase_hex 2 200 [17, 34, 51, 68, 85, 170] [1, 2]
    ⟨2, strCodes "1122334455AA", -56, strCodes "0102"⟩
    ⟨2, strCodes "1122334455aa", -56, [1, 2]⟩ rfl (by decide) (by decide) (by decide)

/-- C4: a binary tuple entry and a list entry carrying the same logical
values — same adType, a MAC hex string denoting the same six bytes, the
RSSI carried as the signed value the byte encodes (byte minus 256, the
bias the wire format fixes), and a payload hex string decoding to the
same bytes — normalize to identical DeviceRecord values. -/
theorem format_transparency (adType v : Nat) (mac6 payload : List Nat) (dev : ListEntry)
    (hm : mac6.length = 6) (hv : v ≤ 255)
    (ht : dev.adType = (adType : Int))
    (hmac : lowerStr dev.mac = bytesToHex mac6)
    (hr : dev.rssi = (v : Int) - 256)
    (hp : hexDecode dev.advPayloadHex = some payload) :
    normalize_list_entry dev =
      some (convert_dev_to_dict (adType :: (mac6 ++ v :: payload))) := by
  obtain ⟨a, b, c, d, e, f, rfl⟩ := exists_six mac6 hm
  simp [normalize_list_entry, hp, convert_dev_to_dict, ht, hmac, hr]

/-- C4, witness: the worked example in both wire shapes (list MAC given in
upper case) normalizes to the same record. -/
theorem format_transparency_witness :
    normalize_list_entry ⟨2, strCodes "1122334455AA", (200 : Int) - 256, strCodes "0102"⟩ =
      some (convert_dev_to_dict (2 :: ([17, 34, 51, 68, 85, 170] ++ 200 :: [1, 2]))) :=
  format_transparency 2 200 [17, 34, 51, 68, 85, 170] [1, 2]
    ⟨2, strCodes "1122334455AA", (200 : Int) - 256, strCodes "0102"⟩
    rfl (by decide) rfl (by decide) rfl (by decide)

/-- C3: when the binary deserializer reports trailing data on a payload
whose JSON fallback yields report `r`, the decode stage surfaces exactly
`r` — the same report a binary route decoding `r` directly would surface —
and downstream the message handler enqueues the same items either way. -/
theorem decode_fallback_same_report
    (unpackb unpackb' jsonLoads : List Nat → Unpacked)
    (payload : List Nat) (r : RawReport) (items : List QueueItem)
    (hb : unpackb payload = .exn .extraData)
    (hj : jsonLoads payload = .ok r)
    (hb' : unpackb' payload = .ok r)
    (hi : async_process_discovery_data r = (items, true)) :
    decodeReport unpackb jsonLoads payload = .ok r ∧
    decodeReport unpackb' jsonLoads payload = .ok r ∧
    async_message_received unpackb jsonLoads payload = .enqueued items ∧
    async_message_received unpackb' jsonLoads payload = .enqueued items := by
  refine ⟨?_, ?_, ?_, ?_⟩ <;>
    simp [decodeReport, async_message_received, hb, hj, hb', hi]

/-- C3, witness: the spec's worked example report routed through the
trailing-data fallback and through a direct binary decode. -/
theorem decode_fallback_same_report_witness :
    decodeReport (fun _ => .exn .extraData)
        (fun _ => .ok ⟨some (strCodes "AA:BB:CC"),
          [.binary [2, 17, 34, 51, 68, 85, 102, 200, 1, 2]]⟩) [0, 0] =
      .ok ⟨some (strCodes "AA:BB:CC"),
          [.binary [2, 17, 34, 51, 68, 85, 102, 200, 1, 2]]⟩ ∧
    decodeReport (fun _ => .ok ⟨some (strCodes "AA:BB:CC"),
          [.binary [2, 17, 34, 51, 68, 85, 102, 200, 1, 2]]⟩)
        (fun _ => .ok ⟨some (strCodes "AA:BB:CC"),
          [.binary [2, 17, 34, 51, 68, 85, 102, 200, 1, 2]]⟩) [0, 0] =
      .ok ⟨some (strCodes "AA:BB:CC"),
          [.binary [2, 17, 34, 51, 68, 85, 102, 200, 1, 2]]⟩ ∧
    async_message_received (fun _ => .exn .extraData)
        (fun _ => .ok ⟨some (strCodes "AA:BB:CC"),
          [.binary [2, 17, 34, 51, 68, 85, 102, 200, 1, 2]]⟩) [0, 0] =
      .enqueued [⟨some (strCodes "AA:BB:CC"),
          ⟨2, strCodes "112233445566", -56, [1, 2]⟩⟩] ∧
    async_message_received (fun _ => .ok ⟨some (strCodes "AA:BB:CC"),
          [.binary [2, 17, 34, 51, 68, 85, 102, 200, 1, 2]]⟩)
        (fun _ => .ok ⟨some (strCodes "AA:BB:CC"),
          [.binary [2, 17, 34, 51, 68, 85, 102, 200, 1, 2]]⟩) [0, 0] =
      .enqueued [⟨some (strCodes "AA:BB:CC"),
          ⟨2, strCodes "112233445566", -56, [1, 2]⟩⟩] :=
  decode_fallback_same_report (fun _ => .exn .extraData)
    (fun _ => .ok ⟨some (strCodes "AA:BB:CC"),
      [.binary [2, 17, 34, 51, 68, 85, 102, 200, 1, 2]]⟩)
    (fun _ => .ok ⟨some (strCodes "AA:BB:CC"),
      [.binary [2, 17, 34, 51, 68, 85, 102, 200, 1, 2]]⟩)
    [0, 0]
    ⟨some (strCodes "AA:BB:CC"), [.binary [2, 17, 34, 51, 68, 85, 102, 200, 1, 2]]⟩
    [⟨some (strCodes "AA:BB:CC"), ⟨2, strCodes "112233445566", -56, [1, 2]⟩⟩]
    rfl rfl rfl (by decide)

/-- C8: the one event a successfully processed queue item dispatches
carries as its name the advertised local name when that is present (non
empty), else the parsed device's name when present, else the device
address — the `or` fallback chain of the event constructor. -/
theorem event_name_fallback
    (parse : DeviceRecord → Option (BLEDevice × AdvertisementData))
    (item : QueueItem) (now : Int) (s s' : ScannerState)
    (d : BLEDevice) (ad : AdvertisementData)
    (hp : parse item.device = some (d, ad))
    (hs : async_on_advertisement parse item now s = some s') :
    s'.dispatched.length = s.dispatched.length + 1 ∧
    (pyTruthy ad.local_name = true →
      (s'.dispatched.getLast?.map fun e => e.name) = ad.local_name) ∧
    (pyTruthy ad.local_name = false → pyTruthy d.name = true →
      (s'.dispatched.getLast?.map fun e => e.name) = d.name) ∧
    (pyTruthy ad.local_name = false → pyTruthy d.name = false →
      (s'.dispatched.getLast?.map fun e => e.name) = some d.address) := by
  simp only [async_on_advertisement, hp, Option.some_inj] at hs
  subst hs
  refine ⟨by simp, ?_, ?_, ?_⟩
  · intro h
    cases hl : ad.local_name with
    | none => rw [hl] at h; simp [pyTruthy] at h
    | some nm =>
      rw [hl] at h
      simp [List.getLast?_concat, fallbackName, hl, h]
  · intro h1 h2
    cases hl : d.name with
    | none => rw [hl] at h2; simp [pyTruthy] at h2
    | some nm =>
      rw [hl] at h2
      simp [List.getLast?_concat, fallbackName, h1, h2, hl]
  · intro h1 h2
    simp [List.getLast?_concat, fallbackName, h1, h2]

/-- C8, witness: with an advertised local name present, the dispatched
event is named by it. -/
theorem event_name_fallback_witness :
    pyTruthy (some (strCodes "LN")) = true ∧
    ((async_run_loop
        (fun _ => some (⟨strCodes "addr", some (strCodes "devname")⟩,
          ⟨some (strCodes "LN"), -50, [], [], []⟩))
        [⟨some (strCodes "gw"), ⟨1, [], -60, []⟩⟩] 0
        initialState).1.dispatched.getLast?.map fun e => e.name) =
      some (strCodes "LN") := by
  constructor
  · decide
  · exact (event_name_fallback
      (fun _ => some (⟨strCodes "addr", some (strCodes "devname")⟩,
        ⟨some (strCodes "LN"), -50, [], [], []⟩))
      ⟨some (strCodes "gw"), ⟨1, [], -60, []⟩⟩ 0 initialState
      ((async_run_loop
        (fun _ => some (⟨strCodes "addr", some (strCodes "devname")⟩,
          ⟨some (strCodes "LN"), -50, [], [], []⟩))
        [⟨some (strCodes "gw"), ⟨1, [], -60, []⟩⟩] 0 initialState).1)
      ⟨strCodes "addr", some (strCodes "devname")⟩
      ⟨some (strCodes "LN"), -50, [], [], []⟩
      rfl (by decide)).2.1 (by decide)

/-- C10: starting from a fresh scanner, every event a run of the
processing loop hands to the callback has `connectable` set to `True`,
for any queue contents and adapter behaviour, even though the scanner
itself is registered with the host with `connectable=False`. -/
theorem dispatched_always_connectable
    (parse : DeviceRecord → Option (BLEDevice × AdvertisementData))
    (items : List QueueItem) (t : Int) :
    (((async_run_loop parse items t initialState).1.dispatched).all
        fun e => e.connectable) = true ∧
    async_register_scanner_connectable = false :=
  ⟨async_run_loop_all_connectable parse items t initialState rfl, rfl⟩

end ABGateway
